import Mathlib

/-!
Shallow embedding of `src/plugins/langchain/python/agentx_langchain_service.py`
(the AgentX LangChain service): the in-process registries (model cache, tool
registry, agent store), the built-in tools, and the dispatch operations
(`/chat`, `/tool`, `/chain`, `/agent/create`, `/agent/delete`,
`/model/preload`), together with theorems settling the frozen claims about
them.

Python dictionaries are embedded as association lists with unique keys
(first-match lookup, overwrite-on-insert), Python exceptions as an explicit
`PyExc` sum carried in `Except`, and the process environment as an
`Option String` (the value of `OPENAI_API_KEY`, `none` when unset).  Handlers
that mutate the global `ServiceState` are embedded in explicit state-passing
style, returning the final state alongside the response-or-exception, because
in the source a mutation of the global state survives a later exception in the
same handler.
-/

namespace AgentX

/-- Embeds Python dict assignment `d[k] = v`: overwrite the first binding of
`k` if present, otherwise append a new binding. -/
def dictInsert (k : String) (v : α) : List (String × α) → List (String × α)
  | [] => [(k, v)]
  | (k', v') :: rest =>
    if k' = k then (k, v) :: rest else (k', v') :: dictInsert k v rest

/-- Embeds Python `del d[k]` on a dict (unique keys): remove every binding of
`k`. -/
def dictErase (k : String) : List (String × α) → List (String × α)
  | [] => []
  | (k', v') :: rest =>
    if k' = k then dictErase k rest else (k', v') :: dictErase k rest

/-- Model of a raised Python exception, as classified by the service:
`http` is FastAPI `HTTPException(status_code, detail)`, the others are the
builtin exception kinds the handlers can raise. -/
inductive PyExc where
  | http (status : Nat) (detail : String)
  | keyError (key : String)
  | valueError (msg : String)
  | other (msg : String)
deriving DecidableEq

/-- Model of Python `str(e)` on an exception, as interpolated into the
service's wrapped error messages (quotation marks around interpolated values
are elided in this model). -/
def excStr : PyExc → String
  | .http status detail => toString status ++ ": " ++ detail
  | .keyError key => "KeyError: " ++ key
  | .valueError msg => msg
  | .other msg => msg

/-! ### Model of Python `eval` on the arithmetic fragment

The calculator tool feeds its input to the Python builtin `eval` after an
allow-list check restricting the characters to `0123456789+-*/.() ` (space
included).  `eval` is not code of this repository; it is modelled here on the
fragment reachable under that allow-list: integer and float literals, the
binary operators `+ - * / // **`, unary `+`/`-`, and parentheses, with
Python's precedence and associativity.  Python floats are modelled by exact
rationals, and the rendering of a non-integral float value is abstracted (no
claim depends on it); expressions outside this fragment (e.g. tuple displays
such as `()`) and Python-level errors are mapped to textual errors, matching
the calculator's catch-all. -/

/-- A Python numeric value: `int` or `float` (floats modelled by exact
rationals). -/
inductive PyVal where
  | int (i : Int)
  | float (q : Rat)
deriving DecidableEq

/-- The rational magnitude of a Python numeric value. -/
def PyVal.toRat : PyVal → Rat
  | .int i => (i : Rat)
  | .float q => q

/-- Whether a Python numeric value is an `int`. -/
def PyVal.isInt : PyVal → Bool
  | .int _ => true
  | .float _ => false

/-- Python `+` on numbers: `int` when both operands are `int`, else `float`. -/
def pyAdd : PyVal → PyVal → PyVal
  | .int a, .int b => .int (a + b)
  | a, b => .float (a.toRat + b.toRat)

/-- Python binary `-` on numbers. -/
def pySub : PyVal → PyVal → PyVal
  | .int a, .int b => .int (a - b)
  | a, b => .float (a.toRat - b.toRat)

/-- Python `*` on numbers. -/
def pyMul : PyVal → PyVal → PyVal
  | .int a, .int b => .int (a * b)
  | a, b => .float (a.toRat * b.toRat)

/-- Python unary `-` on numbers. -/
def pyNeg : PyVal → PyVal
  | .int a => .int (-a)
  | .float q => .float (-q)

/-- Python true division `/`: always a `float`; division by zero raises. -/
def pyDiv (a b : PyVal) : Except String PyVal :=
  if b.toRat = 0 then
    .error (if a.isInt && b.isInt then "division by zero"
            else "float division by zero")
  else .ok (.float (a.toRat / b.toRat))

/-- Python floor division `//`; division by zero raises. -/
def pyFloorDiv : PyVal → PyVal → Except String PyVal
  | .int a, .int b =>
    if b = 0 then .error "integer division or modulo by zero"
    else .ok (.int (Int.fdiv a b))
  | a, b =>
    if b.toRat = 0 then .error "float floor division by zero"
    else .ok (.float ((Rat.floor (a.toRat / b.toRat) : Int) : Rat))

/-- Python `**` on numbers: `int ** nonnegative int` stays `int`; a negative
exponent or a float operand yields a `float`; a zero base with a negative
exponent raises; a non-integral float exponent is outside the modelled
fragment and mapped to an error. -/
def pyPow : PyVal → PyVal → Except String PyVal
  | .int a, .int b =>
    if 0 ≤ b then .ok (.int (a ^ b.toNat))
    else if a = 0 then .error "zero cannot be raised to a negative power"
    else .ok (.float ((a : Rat) ^ b))
  | a, b =>
    if b.toRat.den = 1 then
      if a.toRat = 0 ∧ b.toRat.num < 0 then
        .error "zero cannot be raised to a negative power"
      else .ok (.float (a.toRat ^ b.toRat.num))
    else .error "non-integral float exponent outside the modelled fragment"

/-- Tokens of the arithmetic fragment. -/
inductive Tok where
  | num (v : PyVal)
  | plus | minus | star | slash | dstar | dslash | lpar | rpar
deriving DecidableEq

/-- Numeric value of a decimal digit character. -/
def digitVal (c : Char) : Nat := c.toNat - 48

/-- Natural number denoted by a digit string. -/
def natOfDigits (ds : List Char) : Nat :=
  ds.foldl (fun a c => a * 10 + digitVal c) 0

/-- Value of a float literal with integer-part digits `ds` and fractional
digits `fs`. -/
def floatLit (ds fs : List Char) : Rat :=
  (natOfDigits ds : Rat) + (natOfDigits fs : Rat) / (10 : Rat) ^ fs.length

/-- Tokenizer for the arithmetic fragment (fuel-indexed; one character is
consumed per step, so fuel `length + 1` always suffices). -/
def tokenizeAux : Nat → List Char → Except String (List Tok)
  | 0, _ => .error "internal fuel exhausted"
  | _ + 1, [] => .ok []
  | fuel + 1, c :: cs =>
    if c = ' ' then tokenizeAux fuel cs
    else if c = '+' then (tokenizeAux fuel cs).map (Tok.plus :: ·)
    else if c = '-' then (tokenizeAux fuel cs).map (Tok.minus :: ·)
    else if c = '(' then (tokenizeAux fuel cs).map (Tok.lpar :: ·)
    else if c = ')' then (tokenizeAux fuel cs).map (Tok.rpar :: ·)
    else if c = '*' then
      match cs with
      | '*' :: cs2 => (tokenizeAux fuel cs2).map (Tok.dstar :: ·)
      | _ => (tokenizeAux fuel cs).map (Tok.star :: ·)
    else if c = '/' then
      match cs with
      | '/' :: cs2 => (tokenizeAux fuel cs2).map (Tok.dslash :: ·)
      | _ => (tokenizeAux fuel cs).map (Tok.slash :: ·)
    else if c.isDigit || c = '.' then
      let ds := (c :: cs).takeWhile Char.isDigit
      let rest := (c :: cs).dropWhile Char.isDigit
      match rest with
      | '.' :: rest2 =>
        let fs := rest2.takeWhile Char.isDigit
        let rest3 := rest2.dropWhile Char.isDigit
        if ds.isEmpty && fs.isEmpty then .error "invalid syntax"
        else (tokenizeAux fuel rest3).map (Tok.num (.float (floatLit ds fs)) :: ·)
      | _ =>
        if ds.isEmpty then .error "invalid syntax"
        else (tokenizeAux fuel rest).map (Tok.num (.int (natOfDigits ds)) :: ·)
    else .error ("invalid character " ++ String.singleton c)

/-- Tokenize an input string. -/
def tokenize (s : String) : Except String (List Tok) :=
  tokenizeAux (s.data.length + 1) s.data

mutual

/-- Parse/evaluate an expression: `term (("+" | "-") term)*`. -/
def parseExpr : Nat → List Tok → Except String (PyVal × List Tok)
  | 0, _ => .error "internal fuel exhausted"
  | f + 1, ts =>
    match parseTerm f ts with
    | .error e => .error e
    | .ok (v, rest) => parseExprLoop f v rest

/-- Left-associative additive loop. -/
def parseExprLoop : Nat → PyVal → List Tok → Except String (PyVal × List Tok)
  | 0, _, _ => .error "internal fuel exhausted"
  | f + 1, acc, Tok.plus :: rest =>
    match parseTerm f rest with
    | .error e => .error e
    | .ok (v, rest2) => parseExprLoop f (pyAdd acc v) rest2
  | f + 1, acc, Tok.minus :: rest =>
    match parseTerm f rest with
    | .error e => .error e
    | .ok (v, rest2) => parseExprLoop f (pySub acc v) rest2
  | _ + 1, acc, ts => .ok (acc, ts)

/-- Parse/evaluate a term: `unary (("*" | "/" | "//") unary)*`. -/
def parseTerm : Nat → List Tok → Except String (PyVal × List Tok)
  | 0, _ => .error "internal fuel exhausted"
  | f + 1, ts =>
    match parseUnary f ts with
    | .error e => .error e
    | .ok (v, rest) => parseTermLoop f v rest

/-- Left-associative multiplicative loop. -/
def parseTermLoop : Nat → PyVal → List Tok → Except String (PyVal × List Tok)
  | 0, _, _ => .error "internal fuel exhausted"
  | f + 1, acc, Tok.star :: rest =>
    match parseUnary f rest with
    | .error e => .error e
    | .ok (v, rest2) => parseTermLoop f (pyMul acc v) rest2
  | f + 1, acc, Tok.slash :: rest =>
    match parseUnary f rest with
    | .error e => .error e
    | .ok (v, rest2) =>
      match pyDiv acc v with
      | .error e => .error e
      | .ok w => parseTermLoop f w rest2
  | f + 1, acc, Tok.dslash :: rest =>
    match parseUnary f rest with
    | .error e => .error e
    | .ok (v, rest2) =>
      match pyFloorDiv acc v with
      | .error e => .error e
      | .ok w => parseTermLoop f w rest2
  | _ + 1, acc, ts => .ok (acc, ts)

/-- Parse/evaluate a unary expression: `("-" | "+") unary | power`. -/
def parseUnary : Nat → List Tok → Except String (PyVal × List Tok)
  | 0, _ => .error "internal fuel exhausted"
  | f + 1, Tok.minus :: rest =>
    match parseUnary f rest with
    | .error e => .error e
    | .ok (v, rest2) => .ok (pyNeg v, rest2)
  | f + 1, Tok.plus :: rest => parseUnary f rest
  | f + 1, ts => parsePower f ts

/-- Parse/evaluate a power: `atom ("**" unary)?` (right-associative, binding
tighter than unary minus on its left). -/
def parsePower : Nat → List Tok → Except String (PyVal × List Tok)
  | 0, _ => .error "internal fuel exhausted"
  | f + 1, ts =>
    match parseAtom f ts with
    | .error e => .error e
    | .ok (v, Tok.dstar :: rest) =>
      match parseUnary f rest with
      | .error e => .error e
      | .ok (w, rest2) =>
        match pyPow v w with
        | .error e => .error e
        | .ok u => .ok (u, rest2)
    | .ok (v, rest) => .ok (v, rest)

/-- Parse an atom: a numeric literal or a parenthesized expression. -/
def parseAtom : Nat → List Tok → Except String (PyVal × List Tok)
  | 0, _ => .error "internal fuel exhausted"
  | _ + 1, Tok.num v :: rest => .ok (v, rest)
  | f + 1, Tok.lpar :: rest =>
    match parseExpr f rest with
    | .error e => .error e
    | .ok (v, Tok.rpar :: rest2) => .ok (v, rest2)
    | .ok (_, _) => .error "invalid syntax"
  | _ + 1, _ => .error "invalid syntax"

end

/-- Model of Python `eval` on the arithmetic fragment: tokenize, parse the
whole token list as one expression, and evaluate. -/
def pyEval (s : String) : Except String PyVal :=
  match tokenize s with
  | .error e => .error e
  | .ok ts =>
    match parseExpr (5 * ts.length + 10) ts with
    | .error e => .error e
    | .ok (v, []) => .ok v
    | .ok (_, _ :: _) => .error "invalid syntax"

/-- Model of Python `str` on a numeric value (the rendering of a non-integral
float is abstracted; no claim depends on it). -/
def pyStr : PyVal → String
  | .int i => toString i
  | .float q => if q.den = 1 then toString q.num ++ ".0" else toString q

/-- The character allow-list of the calculator tool:
`set("0123456789+-*/.() ")`. -/
def allowedChars : List Char := "0123456789+-*/.() ".data

/-- The calculator tool (`calculator` in `create_basic_tools`): reject any
input containing a character outside the allow-list with a fixed error string;
otherwise evaluate and stringify, catching any evaluation error and returning
it as an error-description string. -/
def calculator (expression : String) : String :=
  if expression.data.all (fun c => allowedChars.contains c) then
    match pyEval expression with
    | .ok v => pyStr v
    | .error e => "计算错误: " ++ e
  else "错误: 包含不允许的字符"

/-! ### Tools and service state -/

/-- A registered tool (`langchain.tools.Tool`): a name, a description, and a
single-string-input function.  The function may raise (modelled by `Except`),
matching the invocation boundary in `call_tool` that catches tool errors. -/
structure Tool where
  name : String
  description : String
  func : String → Except PyExc String

/-- The `search_tool` placeholder from `create_basic_tools` (quotation marks
around the interpolated query are elided in this model). -/
def searchTool (query : String) : String :=
  "搜索结果: 关于" ++ query ++ "的信息（这是一个模拟结果）"

/-- The `weather_tool` placeholder from `create_basic_tools`. -/
def weatherTool (location : String) : String :=
  location ++ "的天气: 晴天，温度25°C（这是一个模拟结果）"

/-- `create_basic_tools`: the three built-in tools registered at
service initialization. -/
def createBasicTools : List Tool :=
  [ ⟨"calculator", "用于数学计算的工具", fun s => .ok (calculator s)⟩,
    ⟨"search", "用于搜索信息的工具", fun s => .ok (searchTool s)⟩,
    ⟨"weather", "用于获取天气信息的工具", fun s => .ok (weatherTool s)⟩ ]

/-- A cached model handle (a constructed `ChatOpenAI` client).  The `id` field
models Python object identity: it is the value of the construction counter at
the time the handle was built, so two separately constructed handles have
different `id`s and "the same cached handle" is expressible as equality. -/
structure ModelHandle where
  id : Nat
  modelName : String
  apiKey : String
deriving DecidableEq

/-- A record in the agent store (the `agent_data` dict built by
`create_agent`).  The external `ConversationBufferMemory` object is opaque and
carried as no data; the external agent object built by `initialize_agent` for
the `tool_using` kind is modelled by its inputs (the bound model and the names
of the tool names that resolved in the registry). -/
inductive AgentData where
  | conversational (model : ModelHandle) (tools : List String)
      (config : List (String × String))
  | toolUsing (model : ModelHandle) (resolvedTools : List String)
      (tools : List String) (config : List (String × String))
deriving DecidableEq

/-- The global `ServiceState`: agent store, model cache, tool registry,
session store, and the initialized flag.  `nextId` is the model-handle
construction counter (models object identity; it is not a field of the Python
object but an observer of how many handles have been constructed). -/
structure ServiceState where
  agents : List (String × AgentData)
  models : List (String × ModelHandle)
  tools : List (String × Tool)
  sessions : List (String × Unit)
  initFlag : Bool
  nextId : Nat

/-- The state at process start: all registries empty. -/
def ServiceState.empty : ServiceState := ⟨[], [], [], [], false, 0⟩

/-! ### Model construction and the model cache -/

/-- Embeds Python `s.startswith(pre)` (on character lists, so that it reduces
definitionally). -/
def strStartsWith (s pre : String) : Bool :=
  pre.data.isPrefixOf s.data

/-- `get_openai_api_key`: read `OPENAI_API_KEY` from the process environment
(`none` = unset); a missing or empty value raises `HTTPException(500)`. -/
def getOpenaiApiKey (env : Option String) : Except PyExc String :=
  match env with
  | none => .error (.http 500 "OPENAI_API_KEY环境变量未设置")
  | some k =>
    if k = "" then .error (.http 500 "OPENAI_API_KEY环境变量未设置")
    else .ok k

/-- `create_chat_model`: a name with the supported `gpt-` prefix yields a
`ChatOpenAI` handle built from the credential; any other name raises
`ValueError`; any exception (including the credential one) is wrapped into
`HTTPException(500, "创建模型失败: ...")`.  `nextId` is the construction
counter used as the new handle's identity. -/
def createChatModel (env : Option String) (nextId : Nat) (modelName : String) :
    Except PyExc ModelHandle :=
  if strStartsWith modelName "gpt-" then
    match getOpenaiApiKey env with
    | .error e => .error (.http 500 ("创建模型失败: " ++ excStr e))
    | .ok k => .ok ⟨nextId, modelName, k⟩
  else
    .error (.http 500 ("创建模型失败: " ++
      excStr (.valueError ("不支持的模型: " ++ modelName))))

/-- The model-cache resolution pattern shared verbatim by `chat`,
`execute_chain`, `create_agent` and `preload_model`:
`if m not in state.models: state.models[m] = create_chat_model(m)` followed by
reading `state.models[m]`.  On a cache hit the stored handle is returned and
the state is untouched; on a miss a new handle is constructed (incrementing
the construction counter) and stored; a construction failure leaves the cache
unchanged (failures are not cached). -/
def resolveModel (env : Option String) (st : ServiceState) (m : String) :
    Except PyExc ModelHandle × ServiceState :=
  match st.models.lookup m with
  | some h => (.ok h, st)
  | none =>
    match createChatModel env st.nextId m with
    | .error e => (.error e, st)
    | .ok h =>
      (.ok h, { st with models := dictInsert m h st.models,
                        nextId := st.nextId + 1 })

/-! ### The chat operation -/

/-- A chat request (`ChatRequest`); each message is a string-keyed dict.
Fields the `chat` handler never reads (`agent_type`, `tools`, `memory_type`,
`config`) are omitted. -/
structure ChatRequest where
  model : String
  messages : List (List (String × String))

/-- A chat response (`ChatResponse`; the unused optional `usage` field is
omitted). -/
structure ChatResponse where
  content : String
  model : String
  timestamp : String
deriving DecidableEq

/-- A provider message (`HumanMessage` / `AIMessage` / `SystemMessage`). -/
inductive LCMessage where
  | human (content : String)
  | ai (content : String)
  | system (content : String)
deriving DecidableEq

/-- The message-building loop of `chat`: for each message dict, read
`msg["role"]` (a `KeyError` if absent), map the three recognized roles to the
provider representation reading `msg["content"]`, and skip any other role. -/
def buildMessages : List (List (String × String)) → Except PyExc (List LCMessage)
  | [] => .ok []
  | msg :: rest =>
    match msg.lookup "role" with
    | none => .error (.keyError "role")
    | some role =>
      if role = "user" then
        match msg.lookup "content" with
        | none => .error (.keyError "content")
        | some c =>
          match buildMessages rest with
          | .error e => .error e
          | .ok ms => .ok (.human c :: ms)
      else if role = "assistant" then
        match msg.lookup "content" with
        | none => .error (.keyError "content")
        | some c =>
          match buildMessages rest with
          | .error e => .error e
          | .ok ms => .ok (.ai c :: ms)
      else if role = "system" then
        match msg.lookup "content" with
        | none => .error (.keyError "content")
        | some c =>
          match buildMessages rest with
          | .error e => .error e
          | .ok ms => .ok (.system c :: ms)
      else buildMessages rest

/-- The body of the `chat` handler's `try` block: resolve the model, build the
provider messages, invoke the model.  `gen` is the external model invocation
(`model(messages)`, returning the generated content, possibly raising) and
`now` the timestamp `datetime.now().isoformat()`. -/
def chatTry (gen : ModelHandle → List LCMessage → Except PyExc String)
    (env : Option String) (now : String) (st : ServiceState)
    (req : ChatRequest) : Except PyExc ChatResponse × ServiceState :=
  match resolveModel env st req.model with
  | (.error e, st') => (.error e, st')
  | (.ok h, st') =>
    match buildMessages req.messages with
    | .error e => (.error e, st')
    | .ok msgs =>
      match gen h msgs with
      | .error e => (.error e, st')
      | .ok content => (.ok ⟨content, req.model, now⟩, st')

/-- The `chat` handler: any exception in the body is re-raised as
`HTTPException(500, "聊天处理失败: ...")` — a request-level fault, not a soft
envelope. -/
def chat (gen : ModelHandle → List LCMessage → Except PyExc String)
    (env : Option String) (now : String) (st : ServiceState)
    (req : ChatRequest) : Except PyExc ChatResponse × ServiceState :=
  match chatTry gen env now st req with
  | (.ok r, st') => (.ok r, st')
  | (.error e, st') =>
    (.error (.http 500 ("聊天处理失败: " ++ excStr e)), st')

/-! ### The tool-call operation -/

/-- A tool-call request (`ToolRequest`; the unused `agent_config` field is
omitted).  Argument values are modelled as strings (the flattening policy is
independent of the value type). -/
structure ToolRequest where
  toolName : String
  arguments : List (String × String)

/-- A tool-call response (`ToolResponse`): the soft-failure envelope. -/
structure ToolResponse where
  result : Option String
  success : Bool
  error : Option String
deriving DecidableEq

/-- A minimal model of `json.dumps` on a string-valued dict (backslashes and
double quotes are escaped; other escapes do not arise in the claims). -/
def jsonEscape (s : String) : String :=
  s.data.foldl
    (fun acc c =>
      if c = '\\' then acc ++ "\\\\"
      else if c = '"' then acc ++ "\\\""
      else acc ++ String.singleton c) ""

/-- `json.dumps` on a string-valued dict, with the default separators. -/
def jsonDumps (args : List (String × String)) : String :=
  "\x7b" ++
    String.intercalate ", "
      (args.map (fun p => "\"" ++ jsonEscape p.1 ++ "\": \"" ++ jsonEscape p.2 ++ "\"")) ++
  "\x7d"

/-- The argument-flattening policy of `call_tool`: exactly one argument passes
its value directly (`list(arguments.values())[0]`); zero or several arguments
pass `json.dumps(arguments)`. -/
def buildToolInput (args : List (String × String)) : String :=
  match args with
  | [(_, v)] => v
  | _ => jsonDumps args

/-- The `call_tool` handler: an unregistered tool name yields the soft-failure
envelope; otherwise the tool function is invoked on the flattened input, and
any exception it raises is caught and returned as a soft-failure envelope
(`except Exception` around the whole body).  The handler never raises, which
is why its codomain is the bare envelope. -/
def callTool (st : ServiceState) (req : ToolRequest) :
    ToolResponse × ServiceState :=
  match st.tools.lookup req.toolName with
  | none => (⟨none, false, some ("工具 " ++ req.toolName ++ " 不存在")⟩, st)
  | some tool =>
    match tool.func (buildToolInput req.arguments) with
    | .ok r => (⟨some r, true, none⟩, st)
    | .error e => (⟨none, false, some (excStr e)⟩, st)

/-! ### The chain-run operation -/

/-- A chain-run request (`ChainRequest`; the unused `agent_config` field is
omitted).  The chain configuration is a string-keyed dict; the handler reads
the string-valued keys `type`, `prompt` and `input`. -/
structure ChainRequest where
  chainConfig : List (String × String)
  model : String

/-- A chain-run response (`ChainResponse`): the soft-failure envelope. -/
structure ChainResponse where
  result : Option String
  success : Bool
  error : Option String
deriving DecidableEq

/-- Placeholder substitution on character lists: each occurrence of the seven
characters `\x7binput\x7d` is replaced by the input. -/
def substData (inp : List Char) : List Char → List Char
  | c1 :: c2 :: c3 :: c4 :: c5 :: c6 :: c7 :: rest =>
    if c1.toNat = 123 ∧ c2 = 'i' ∧ c3 = 'n' ∧ c4 = 'p' ∧ c5 = 'u' ∧
        c6 = 't' ∧ c7.toNat = 125 then
      inp ++ substData inp rest
    else c1 :: substData inp (c2 :: c3 :: c4 :: c5 :: c6 :: c7 :: rest)
  | c :: rest => c :: substData inp rest
  | [] => []

/-- Modelled from the spec: the external toolkit's prompt templating
(`PromptTemplate` with input variable `input`, as run by `LLMChain.run`),
which "builds a single-turn templated prompt" from the template string by
substituting the input string for each `\x7binput\x7d` placeholder.  The
toolkit itself is not part of this repository's sources. -/
def formatTemplate (template input : String) : String :=
  String.mk (substData input.data template.data)

/-- The `execute_chain` handler.  `llmGen` is the external execution of a
formatted prompt against the model (`LLMChain.run`), `convGen` the external
conversation-chain execution seeded with a fresh request-scoped memory
(`ConversationChain.run`); both may raise.  Every exception in the body —
including a model-resolution failure — is caught by the handler's
`except Exception` and returned as a soft-failure envelope, never re-raised. -/
def executeChain (llmGen : ModelHandle → String → Except PyExc String)
    (convGen : ModelHandle → String → Except PyExc String)
    (env : Option String) (st : ServiceState) (req : ChainRequest) :
    ChainResponse × ServiceState :=
  match resolveModel env st req.model with
  | (.error e, st') => (⟨none, false, some (excStr e)⟩, st')
  | (.ok h, st') =>
    let chainType := (req.chainConfig.lookup "type").getD "llm"
    if chainType = "llm" then
      let template := (req.chainConfig.lookup "prompt").getD "\x7binput\x7d"
      let inputData := (req.chainConfig.lookup "input").getD ""
      match llmGen h (formatTemplate template inputData) with
      | .ok r => (⟨some r, true, none⟩, st')
      | .error e => (⟨none, false, some (excStr e)⟩, st')
    else if chainType = "conversation" then
      match convGen h ((req.chainConfig.lookup "input").getD "") with
      | .ok r => (⟨some r, true, none⟩, st')
      | .error e => (⟨none, false, some (excStr e)⟩, st')
    else
      (⟨none, false, some ("不支持的链类型: " ++ chainType)⟩, st')

/-! ### Agent lifecycle -/

/-- An agent-creation request (`AgentCreateRequest`; `memory_type` is never
read by the handler and is omitted). -/
structure AgentCreateRequest where
  agentId : String
  agentType : String
  model : String
  tools : Option (List String)
  config : Option (List (String × String))

/-- The body of the `create_agent` handler's `try` block: resolve the model,
build the agent record for the two supported kinds (`tool_using` resolves the
requested tool names against the registry, silently dropping unknown names),
raise `ValueError` on any other kind, and store the record under the
caller-supplied id, overwriting any existing record. -/
def createAgentTry (env : Option String) (st : ServiceState)
    (req : AgentCreateRequest) : Except PyExc String × ServiceState :=
  match resolveModel env st req.model with
  | (.error e, st') => (.error e, st')
  | (.ok h, st') =>
    if req.agentType = "conversational" then
      let rec_ := AgentData.conversational h (req.tools.getD []) (req.config.getD [])
      (.ok req.agentId, { st' with agents := dictInsert req.agentId rec_ st'.agents })
    else if req.agentType = "tool_using" then
      let resolved := (req.tools.getD []).filter (fun n => (st'.tools.lookup n).isSome)
      let rec_ := AgentData.toolUsing h resolved (req.tools.getD []) (req.config.getD [])
      (.ok req.agentId, { st' with agents := dictInsert req.agentId rec_ st'.agents })
    else
      (.error (.valueError ("不支持的Agent类型: " ++ req.agentType)), st')

/-- The `create_agent` handler: any exception is re-raised as
`HTTPException(500, "创建Agent失败: ...")` — a request-level fault. -/
def createAgent (env : Option String) (st : ServiceState)
    (req : AgentCreateRequest) : Except PyExc String × ServiceState :=
  match createAgentTry env st req with
  | (.ok aid, st') => (.ok aid, st')
  | (.error e, st') =>
    (.error (.http 500 ("创建Agent失败: " ++ excStr e)), st')

/-- The `delete_agent` handler.  The request is a free-form dict; its
`agent_id` value is modelled as `Option String` (`none` = key absent).  A
missing or empty id raises `HTTPException(400, "缺少agent_id")`, which the
handler's own `except Exception` catches and re-raises as
`HTTPException(500, "删除Agent失败: ...")`.  Otherwise the record is deleted
if present and the operation reports success either way. -/
def deleteAgent (st : ServiceState) (agentId : Option String) :
    Except PyExc Bool × ServiceState :=
  match agentId with
  | none =>
    (.error (.http 500 ("删除Agent失败: " ++ excStr (.http 400 "缺少agent_id"))), st)
  | some a =>
    if a = "" then
      (.error (.http 500 ("删除Agent失败: " ++ excStr (.http 400 "缺少agent_id"))), st)
    else
      (.ok true, { st with agents := dictErase a st.agents })

/-! ### Preload operations -/

/-- The `preload_model` handler: a missing or empty `model` value raises
`HTTPException(400)`, re-raised by the catch-all as `HTTPException(500)`;
otherwise the model is resolved through the cache (a resolution failure is
likewise re-raised as a request-level fault) and success is reported with the
model name. -/
def preloadModel (env : Option String) (st : ServiceState)
    (modelName : Option String) : Except PyExc String × ServiceState :=
  match modelName with
  | none =>
    (.error (.http 500 ("预加载模型失败: " ++ excStr (.http 400 "缺少model参数"))), st)
  | some m =>
    if m = "" then
      (.error (.http 500 ("预加载模型失败: " ++ excStr (.http 400 "缺少model参数"))), st)
    else
      match resolveModel env st m with
      | (.error e, st') =>
        (.error (.http 500 ("预加载模型失败: " ++ excStr e)), st')
      | (.ok _, st') => (.ok m, st')

/-- The `initialize_service` handler: register the three built-in tools,
preload `gpt-3.5-turbo` best-effort (a construction failure is logged, not
fatal), and set the initialized flag. -/
def initService (env : Option String) (st : ServiceState) :
    Except PyExc String × ServiceState :=
  let st1 := { st with tools := createBasicTools.foldl (fun ts t => dictInsert t.name t ts) st.tools }
  let st2 := (resolveModel env st1 "gpt-3.5-turbo").2
  (.ok "初始化成功", { st2 with initFlag := true })

/-- Specification-side characterization of the chat message mapping (for
comparison with `buildMessages`): a message with a recognized role maps to the
corresponding provider representation of its content, any other message is
omitted. -/
def specRecognizedMessages (msgs : List (List (String × String))) :
    List LCMessage :=
  msgs.filterMap (fun m =>
    match m.lookup "role" with
    | none => none
    | some role =>
      if role = "user" then (m.lookup "content").map .human
      else if role = "assistant" then (m.lookup "content").map .ai
      else if role = "system" then (m.lookup "content").map .system
      else none)

/-! ### Dictionary lemmas -/

theorem lookup_dictInsert_self (k : String) (v : α) (l : List (String × α)) :
    (dictInsert k v l).lookup k = some v := by
  induction l with
  | nil => simp [dictInsert, List.lookup]
  | cons hd tl ih =>
    obtain ⟨k', v'⟩ := hd
    by_cases h : k' = k
    · simp [dictInsert, h, List.lookup]
    · simp only [dictInsert, if_neg h, List.lookup]
      have : (k == k') = false := by
        simp [beq_eq_false_iff_ne]
        exact fun hk => h hk.symm
      rw [this]
      exact ih

theorem lookup_dictErase_self (k : String) (l : List (String × α)) :
    (dictErase k l).lookup k = none := by
  induction l with
  | nil => simp [dictErase, List.lookup]
  | cons hd tl ih =>
    obtain ⟨k', v'⟩ := hd
    by_cases h : k' = k
    · simp [dictErase, h, ih]
    · simp only [dictErase, if_neg h, List.lookup]
      have : (k == k') = false := by
        simp [beq_eq_false_iff_ne]
        exact fun hk => h hk.symm
      rw [this]
      exact ih

theorem dictErase_idem (k : String) (l : List (String × α)) :
    dictErase k (dictErase k l) = dictErase k l := by
  induction l with
  | nil => rfl
  | cons hd tl ih =>
    obtain ⟨k', v'⟩ := hd
    by_cases h : k' = k
    · simp [dictErase, h, ih]
    · simp [dictErase, h, ih]

/-! ### Handler lemmas -/

/-- When the credential is missing or empty, or the model name lacks the
supported `gpt-` prefix, model construction raises `HTTPException(500)`. -/
theorem createChatModel_error (env : Option String) (n : Nat) (m : String)
    (h : env.getD "" = "" ∨ strStartsWith m "gpt-" = false) :
    ∃ d, createChatModel env n m = .error (.http 500 d) := by
  unfold createChatModel
  by_cases hp : strStartsWith m "gpt-"
  · rw [if_pos hp]
    rcases h with h | h
    · cases env with
      | none => exact ⟨_, rfl⟩
      | some k =>
        have hk : k = "" := by simpa using h
        subst hk
        exact ⟨_, rfl⟩
    · rw [hp] at h; cases h
  · rw [if_neg hp]
    exact ⟨_, rfl⟩

/-- When every message carries a `role` and a `content` key, the message loop
succeeds and returns exactly the recognized messages. -/
theorem buildMessages_ok (msgs : List (List (String × String)))
    (h : ∀ m ∈ msgs, (m.lookup "role").isSome ∧ (m.lookup "content").isSome) :
    buildMessages msgs = .ok (specRecognizedMessages msgs) := by
  induction msgs with
  | nil => rfl
  | cons m rest ih =>
    obtain ⟨hr, hc⟩ := h m (List.mem_cons_self m rest)
    have ihr := ih (fun m' hm' => h m' (List.mem_cons_of_mem m hm'))
    cases hrole : m.lookup "role" with
    | none => rw [hrole] at hr; exact absurd hr (by simp)
    | some role =>
      cases hcont : m.lookup "content" with
      | none => rw [hcont] at hc; exact absurd hc (by simp)
      | some c =>
        by_cases h1 : role = "user"
        · simp [buildMessages, specRecognizedMessages, hrole, hcont, h1, ihr]
        · by_cases h2 : role = "assistant"
          · simp [buildMessages, specRecognizedMessages, hrole, hcont, h1, h2,
              ihr]
          · by_cases h3 : role = "system"
            · simp [buildMessages, specRecognizedMessages, hrole, hcont, h1,
                h2, h3, ihr]
            · simp [buildMessages, specRecognizedMessages, hrole, hcont, h1,
                h2, h3, ihr]

/-- If some message lacks a `role` key, the message loop raises. -/
theorem buildMessages_error_of_missing_role
    (msgs : List (List (String × String)))
    (h : ∃ m ∈ msgs, m.lookup "role" = none) :
    ∃ e, buildMessages msgs = .error e := by
  induction msgs with
  | nil =>
    obtain ⟨m, hm, _⟩ := h
    exact absurd hm (List.not_mem_nil m)
  | cons m rest ih =>
    cases hrole : m.lookup "role" with
    | none => exact ⟨.keyError "role", by simp [buildMessages, hrole]⟩
    | some role =>
      have htail : ∃ m' ∈ rest, m'.lookup "role" = none := by
        obtain ⟨m', hm', hnone⟩ := h
        rcases List.mem_cons.mp hm' with heq | hmem
        · subst heq; rw [hrole] at hnone; exact absurd hnone (by simp)
        · exact ⟨m', hmem, hnone⟩
      obtain ⟨e, he⟩ := ih htail
      by_cases h1 : role = "user"
      · cases hcont : m.lookup "content" with
        | none =>
          exact ⟨.keyError "content", by simp [buildMessages, hrole, hcont, h1]⟩
        | some c => exact ⟨e, by simp [buildMessages, hrole, hcont, h1, he]⟩
      · by_cases h2 : role = "assistant"
        · cases hcont : m.lookup "content" with
          | none =>
            exact ⟨.keyError "content",
              by simp [buildMessages, hrole, hcont, h1, h2]⟩
          | some c => exact ⟨e, by simp [buildMessages, hrole, hcont, h1, h2, he]⟩
        · by_cases h3 : role = "system"
          · cases hcont : m.lookup "content" with
            | none =>
              exact ⟨.keyError "content",
                by simp [buildMessages, hrole, hcont, h1, h2, h3]⟩
            | some c =>
              exact ⟨e, by simp [buildMessages, hrole, hcont, h1, h2, h3, he]⟩
          · exact ⟨e, by simp [buildMessages, hrole, h1, h2, h3, he]⟩

/-! ### Claims -/

/-- C2: once a resolution of a model identifier has succeeded and stored a
handle in the model cache, every subsequent operation referencing that
identifier returns that same stored handle without constructing a new one.
Conjunct 1: a cache hit returns the stored handle and leaves the state (in
particular the construction counter) untouched.  Conjunct 2: a successful
resolution stores the returned handle, and a repeated resolution returns that
same handle with the state again untouched.  Conjuncts 3 and 4: the `chat` and
`preload_model` operations leave the whole state unchanged when the referenced
model is already cached (so no new handle is constructed). -/
theorem claimC2_idempotent_resolution :
    (∀ (env : Option String) (st : ServiceState) (m : String) (h : ModelHandle),
        st.models.lookup m = some h → resolveModel env st m = (.ok h, st)) ∧
    (∀ (env : Option String) (st : ServiceState) (m : String) (h : ModelHandle)
        (st' : ServiceState), resolveModel env st m = (.ok h, st') →
        st'.models.lookup m = some h ∧ resolveModel env st' m = (.ok h, st')) ∧
    (∀ gen (env : Option String) (now : String) (st : ServiceState)
        (req : ChatRequest) (h : ModelHandle),
        st.models.lookup req.model = some h →
        (chat gen env now st req).2 = st) ∧
    (∀ (env : Option String) (st : ServiceState) (m : String) (h : ModelHandle),
        st.models.lookup m = some h →
        (preloadModel env st (some m)).2 = st) := by
  have hit : ∀ (env : Option String) (st : ServiceState) (m : String)
      (h : ModelHandle), st.models.lookup m = some h →
      resolveModel env st m = (.ok h, st) := by
    intro env st m h hm
    unfold resolveModel
    rw [hm]
  refine ⟨hit, ?_, ?_, ?_⟩
  · intro env st m h st' hres
    unfold resolveModel at hres
    cases hm : st.models.lookup m with
    | some h0 =>
      rw [hm] at hres
      have hh : h0 = h := by
        have h1 := congrArg Prod.fst hres
        simpa using h1
      have hs : st = st' := congrArg Prod.snd hres
      subst hh
      subst hs
      exact ⟨hm, hit env st m h0 hm⟩
    | none =>
      rw [hm] at hres
      cases hc : createChatModel env st.nextId m with
      | error e =>
        rw [hc] at hres
        exact absurd (congrArg Prod.fst hres) (by simp)
      | ok h1 =>
        rw [hc] at hres
        have hh : h1 = h := by
          have h2 := congrArg Prod.fst hres
          simpa using h2
        subst hh
        have hs := congrArg Prod.snd hres
        subst hs
        exact ⟨lookup_dictInsert_self m h1 st.models,
          hit env _ m h1 (lookup_dictInsert_self m h1 st.models)⟩
  · intro gen env now st req h hm
    unfold chat chatTry
    rw [hit env st req.model h hm]
    cases hb : buildMessages req.messages with
    | error e => simp [hb]
    | ok msgs =>
      cases hg : gen h msgs with
      | error e => simp [hb, hg]
      | ok content => simp [hb, hg]
  · intro env st m h hm
    by_cases hm0 : m = ""
    · simp [preloadModel, hm0]
    · simp only [preloadModel]
      rw [if_neg hm0, hit env st m h hm]

/-- C2 witness: with `gpt-4` already cached, resolution returns the cached
handle and the untouched state. -/
theorem claimC2_witness :
    resolveModel (some "sk") ⟨[], [("gpt-4", ⟨7, "gpt-4", "sk"⟩)], [], [], true, 8⟩ "gpt-4"
      = (.ok ⟨7, "gpt-4", "sk"⟩, ⟨[], [("gpt-4", ⟨7, "gpt-4", "sk"⟩)], [], [], true, 8⟩) :=
  claimC2_idempotent_resolution.1 (some "sk") _ "gpt-4" ⟨7, "gpt-4", "sk"⟩ rfl

/-- C3: the arithmetic tool evaluates allow-listed input and returns the
result as a string (in particular `"2+2*3"` yields `"8"`), and any input
containing a character outside the allow-list yields the fixed textual error
string as an ordinary result (`calculator` is a total function, so no fault is
raised).  The spec's own disallowed example `"2+2; rm"` is included. -/
theorem claimC3_calculator_allow_list :
    calculator "2+2*3" = "8" ∧
    calculator "2+2; rm" = "错误: 包含不允许的字符" ∧
    (∀ s : String, (∃ c ∈ s.data, allowedChars.contains c = false) →
        calculator s = "错误: 包含不允许的字符") ∧
    (∀ (s : String) (v : PyVal),
        (s.data.all (fun c => allowedChars.contains c)) = true →
        pyEval s = .ok v → calculator s = pyStr v) := by
  refine ⟨by decide, by decide, ?_, ?_⟩
  · intro s ⟨c, hc, hcon⟩
    unfold calculator
    rw [if_neg]
    intro hall
    rw [List.all_eq_true] at hall
    have := hall c hc
    rw [hcon] at this
    cases this
  · intro s v hall hev
    unfold calculator
    rw [if_pos hall, hev]

/-- C3 witness: `"1+1=2"` contains the disallowed character `=` and is
rejected with the fixed error string. -/
theorem claimC3_witness :
    (∃ c ∈ "1+1=2".data, allowedChars.contains c = false) ∧
    calculator "1+1=2" = "错误: 包含不允许的字符" :=
  ⟨by decide, claimC3_calculator_allow_list.2.2.1 "1+1=2" (by decide)⟩

/-- C4: a tool-call request naming an unregistered tool returns the
soft-failure envelope — `success = false` with a non-empty error string — and
the state unchanged; `callTool` is a total function into the envelope type, so
no request-level fault can be raised. -/
theorem claimC4_unknown_tool_soft_failure (st : ServiceState) (req : ToolRequest)
    (h : st.tools.lookup req.toolName = none) :
    callTool st req =
      (⟨none, false, some ("工具 " ++ req.toolName ++ " 不存在")⟩, st) ∧
    ("工具 " ++ req.toolName ++ " 不存在") ≠ "" := by
  constructor
  · unfold callTool
    rw [h]
  · intro heq
    have hd := congrArg String.data heq
    rw [String.data_append] at hd
    exact absurd (List.append_eq_nil.mp hd).2 (by decide)

/-- C4 witness: calling an unregistered tool on the empty registry. -/
theorem claimC4_witness :
    callTool ServiceState.empty ⟨"nonexistent", []⟩ =
      (⟨none, false, some ("工具 " ++ "nonexistent" ++ " 不存在")⟩,
        ServiceState.empty) ∧
    ("工具 " ++ "nonexistent" ++ " 不存在") ≠ "" :=
  claimC4_unknown_tool_soft_failure ServiceState.empty ⟨"nonexistent", []⟩ rfl

/-- C5: the argument-flattening policy — exactly one argument passes its value
directly as the tool's single string input, zero or several arguments pass the
serialized encoding of the whole mapping — and, for every registered tool,
`call_tool` invokes the tool's function on exactly that flattened input. -/
theorem claimC5_argument_flattening :
    (∀ (k v : String), buildToolInput [(k, v)] = v) ∧
    (∀ args : List (String × String), args.length ≠ 1 →
        buildToolInput args = jsonDumps args) ∧
    (∀ (st : ServiceState) (req : ToolRequest) (tool : Tool),
        st.tools.lookup req.toolName = some tool →
        callTool st req =
          ((match tool.func (buildToolInput req.arguments) with
            | .ok r => ⟨some r, true, none⟩
            | .error e => ⟨none, false, some (excStr e)⟩), st)) := by
  refine ⟨fun k v => rfl, ?_, ?_⟩
  · intro args h
    rcases args with _ | ⟨x, _ | ⟨y, t⟩⟩
    · rfl
    · exact absurd rfl h
    · rfl
  · intro st req tool h
    unfold callTool
    rw [h]
    cases hf : tool.func (buildToolInput req.arguments) <;> simp [hf]

/-- C5 witness: with the calculator registered, a single-argument call passes
the value `"5"` directly (the calculator evaluates it to `"5"`). -/
theorem claimC5_witness :
    callTool
      ⟨[], [], [("calculator", ⟨"calculator", "用于数学计算的工具",
          fun s => .ok (calculator s)⟩)], [], true, 0⟩
      ⟨"calculator", [("x", "5")]⟩ =
      (⟨some "5", true, none⟩,
        ⟨[], [], [("calculator", ⟨"calculator", "用于数学计算的工具",
            fun s => .ok (calculator s)⟩)], [], true, 0⟩) :=
  claimC5_argument_flattening.2.2
    ⟨[], [], [("calculator", ⟨"calculator", "用于数学计算的工具",
        fun s => .ok (calculator s)⟩)], [], true, 0⟩
    ⟨"calculator", [("x", "5")]⟩
    ⟨"calculator", "用于数学计算的工具", fun s => .ok (calculator s)⟩
    rfl

/-- C1 counterexample: the claim says a model-resolution failure (missing
credential or unsupported identifier) is surfaced as a request-level fault for
every model-resolving operation including chain-run, never as a soft failure
envelope with `success = false`.  But `execute_chain`'s catch-all converts the
resolution failure for the unsupported identifier `llama-2` (with no
credential in the environment) into exactly such an envelope. -/
theorem claimC1_counterexample :
    executeChain (fun _ _ => .ok "") (fun _ _ => .ok "") none ServiceState.empty
        ⟨[("type", "llm"), ("input", "hi")], "llama-2"⟩ =
      (⟨none, false, some "500: 创建模型失败: 不支持的模型: llama-2"⟩,
        ServiceState.empty) ∧
    (executeChain (fun _ _ => .ok "") (fun _ _ => .ok "") none ServiceState.empty
        ⟨[("type", "llm"), ("input", "hi")], "llama-2"⟩).1.success = false :=
  ⟨rfl, rfl⟩

/-- C1 (amended): when the referenced model is not cached and the credential
is missing/empty or the identifier lacks the supported `gpt-` prefix, the
`chat`, `create_agent` and `preload_model` operations abort with a
request-level fault (`HTTPException(500)`), while `execute_chain` catches the
same resolution failure and returns a soft failure envelope with
`success = false`. -/
theorem claimC1_resolution_failure_tiers
    (gen : ModelHandle → List LCMessage → Except PyExc String)
    (llmGen convGen : ModelHandle → String → Except PyExc String)
    (env : Option String) (now : String) (st : ServiceState) (m : String)
    (msgs : List (List (String × String))) (aid atype : String)
    (tls : Option (List String)) (cfg : Option (List (String × String)))
    (ccfg : List (String × String))
    (hmiss : st.models.lookup m = none)
    (hbad : env.getD "" = "" ∨ strStartsWith m "gpt-" = false) :
    (∃ d, (chat gen env now st ⟨m, msgs⟩).1 = .error (.http 500 d)) ∧
    (∃ d, (createAgent env st ⟨aid, atype, m, tls, cfg⟩).1 =
        .error (.http 500 d)) ∧
    (∃ d, (preloadModel env st (some m)).1 = .error (.http 500 d)) ∧
    (executeChain llmGen convGen env st ⟨ccfg, m⟩).1.success = false := by
  obtain ⟨d0, hd0⟩ := createChatModel_error env st.nextId m hbad
  have hres : resolveModel env st m = (.error (.http 500 d0), st) := by
    unfold resolveModel
    rw [hmiss, hd0]
  refine ⟨⟨"聊天处理失败: " ++ excStr (.http 500 d0), ?_⟩,
          ⟨"创建Agent失败: " ++ excStr (.http 500 d0), ?_⟩, ?_, ?_⟩
  · simp [chat, chatTry, hres]
  · simp [createAgent, createAgentTry, hres]
  · by_cases hm0 : m = ""
    · exact ⟨"预加载模型失败: " ++ excStr (.http 400 "缺少model参数"),
        by simp [preloadModel, hm0]⟩
    · exact ⟨"预加载模型失败: " ++ excStr (.http 500 d0),
        by simp [preloadModel, hm0, hres]⟩
  · simp [executeChain, hres]

/-- C1 witness: with an empty cache, no credential in the environment and the
unsupported identifier `llama-7b`, chat, agent create and model preload abort
with a request-level fault and chain-run returns a soft failure envelope. -/
theorem claimC1_witness :
    (∃ d, (chat (fun _ _ => .ok "") none "t" ServiceState.empty
        ⟨"llama-7b", []⟩).1 = .error (.http 500 d)) ∧
    (∃ d, (createAgent none ServiceState.empty
        ⟨"a1", "conversational", "llama-7b", none, none⟩).1 =
        .error (.http 500 d)) ∧
    (∃ d, (preloadModel none ServiceState.empty (some "llama-7b")).1 =
        .error (.http 500 d)) ∧
    (executeChain (fun _ _ => .ok "") (fun _ _ => .ok "") none
        ServiceState.empty ⟨[], "llama-7b"⟩).1.success = false :=
  claimC1_resolution_failure_tiers (fun _ _ => .ok "") (fun _ _ => .ok "")
    (fun _ _ => .ok "") none "t" ServiceState.empty "llama-7b" [] "a1"
    "conversational" none none [] rfl (Or.inl rfl)

/-- C6: every chat message with a recognized role (`user`, `assistant`,
`system`) is mapped to the provider's corresponding message representation and
every message with any other role is silently omitted, the operation
completing successfully (messages are assumed to carry `role` and `content`
keys; for a message with no `role` key at all see the claim about missing
roles). -/
theorem claimC6_role_filtering :
    (∀ msgs : List (List (String × String)),
        (∀ m ∈ msgs, (m.lookup "role").isSome ∧ (m.lookup "content").isSome) →
        buildMessages msgs = .ok (specRecognizedMessages msgs)) ∧
    (∀ (gen : ModelHandle → List LCMessage → Except PyExc String)
        (env : Option String) (now : String) (st : ServiceState)
        (req : ChatRequest) (h : ModelHandle) (st' : ServiceState) (out : String),
        (∀ m ∈ req.messages, (m.lookup "role").isSome ∧ (m.lookup "content").isSome) →
        resolveModel env st req.model = (.ok h, st') →
        gen h (specRecognizedMessages req.messages) = .ok out →
        chat gen env now st req = (.ok ⟨out, req.model, now⟩, st')) := by
  refine ⟨buildMessages_ok, ?_⟩
  intro gen env now st req h st' out hmsg hres hgen
  simp [chat, chatTry, hres, buildMessages_ok req.messages hmsg, hgen]

/-- C6 witness: a chat request whose second message has the unrecognized role
`tool` completes successfully; the model sees only the `user` message. -/
theorem claimC6_witness :
    chat (fun _ _ => .ok "resp") (some "sk") "t"
        ⟨[], [("gpt-3.5-turbo", ⟨0, "gpt-3.5-turbo", "sk"⟩)], [], [], true, 1⟩
        ⟨"gpt-3.5-turbo",
          [[("role", "user"), ("content", "hi")],
           [("role", "tool"), ("content", "x")]]⟩ =
      (.ok ⟨"resp", "gpt-3.5-turbo", "t"⟩,
        ⟨[], [("gpt-3.5-turbo", ⟨0, "gpt-3.5-turbo", "sk"⟩)], [], [], true, 1⟩) :=
  claimC6_role_filtering.2 (fun _ _ => .ok "resp") (some "sk") "t"
    ⟨[], [("gpt-3.5-turbo", ⟨0, "gpt-3.5-turbo", "sk"⟩)], [], [], true, 1⟩
    ⟨"gpt-3.5-turbo",
      [[("role", "user"), ("content", "hi")],
       [("role", "tool"), ("content", "x")]]⟩
    ⟨0, "gpt-3.5-turbo", "sk"⟩
    ⟨[], [("gpt-3.5-turbo", ⟨0, "gpt-3.5-turbo", "sk"⟩)], [], [], true, 1⟩
    "resp" (by decide) rfl rfl

/-- C7 counterexample: the claim quantifies over every agent identifier, but
for the empty identifier — which can be present in the store, since creation
never rejects it — the delete operation raises a request-level fault and does
not remove the record, instead of reporting success. -/
theorem claimC7_counterexample :
    (deleteAgent
        ⟨[("", AgentData.conversational ⟨0, "gpt-3.5-turbo", "sk"⟩ [] [])],
          [], [], [], true, 1⟩ (some "")).1 =
      .error (.http 500 "删除Agent失败: 400: 缺少agent_id") ∧
    ((deleteAgent
        ⟨[("", AgentData.conversational ⟨0, "gpt-3.5-turbo", "sk"⟩ [] [])],
          [], [], [], true, 1⟩ (some "")).2).agents.lookup "" =
      some (AgentData.conversational ⟨0, "gpt-3.5-turbo", "sk"⟩ [] []) :=
  ⟨rfl, rfl⟩

/-- C7 (amended): for every non-empty agent identifier, deletion removes the
record if present, is a success-reporting no-op if absent, and is idempotent —
a second deletion succeeds and leaves the state unchanged.  (For the empty
identifier the operation instead raises a request-level fault, as the
falsy-value guard treats it like a missing field.) -/
theorem claimC7_delete_idempotent (st : ServiceState) (a : String)
    (ha : a ≠ "") :
    (deleteAgent st (some a)).1 = .ok true ∧
    ((deleteAgent st (some a)).2).agents.lookup a = none ∧
    deleteAgent ((deleteAgent st (some a)).2) (some a) =
      (.ok true, (deleteAgent st (some a)).2) := by
  refine ⟨?_, ?_, ?_⟩
  · simp [deleteAgent, ha]
  · simp [deleteAgent, ha, lookup_dictErase_self]
  · simp [deleteAgent, ha, dictErase_idem]

/-- C7 witness: deleting `a1` removes it, and deleting it again still
succeeds. -/
theorem claimC7_witness :
    (deleteAgent
        ⟨[("a1", AgentData.conversational ⟨0, "gpt-3.5-turbo", "sk"⟩ [] [])],
          [], [], [], true, 1⟩ (some "a1")).1 = .ok true ∧
    ((deleteAgent
        ⟨[("a1", AgentData.conversational ⟨0, "gpt-3.5-turbo", "sk"⟩ [] [])],
          [], [], [], true, 1⟩ (some "a1")).2).agents.lookup "a1" = none ∧
    deleteAgent ((deleteAgent
        ⟨[("a1", AgentData.conversational ⟨0, "gpt-3.5-turbo", "sk"⟩ [] [])],
          [], [], [], true, 1⟩ (some "a1")).2) (some "a1") =
      (.ok true, (deleteAgent
        ⟨[("a1", AgentData.conversational ⟨0, "gpt-3.5-turbo", "sk"⟩ [] [])],
          [], [], [], true, 1⟩ (some "a1")).2) :=
  claimC7_delete_idempotent
    ⟨[("a1", AgentData.conversational ⟨0, "gpt-3.5-turbo", "sk"⟩ [] [])],
      [], [], [], true, 1⟩ "a1" (by decide)

/-- C8: chain dispatch — a configuration whose `type` resolves to `llm` (the
default) executes the templated prompt built from the caller's template
(default: the bare placeholder, which passes the input through unchanged)
applied to the caller's input; a `type` that is neither `llm` nor
`conversation` yields a soft failure envelope with `success = false`. -/
theorem claimC8_chain_dispatch :
    (∀ (llmGen convGen : ModelHandle → String → Except PyExc String)
        (env : Option String) (st : ServiceState) (req : ChainRequest)
        (h : ModelHandle) (st' : ServiceState) (out : String),
        (req.chainConfig.lookup "type").getD "llm" = "llm" →
        resolveModel env st req.model = (.ok h, st') →
        llmGen h (formatTemplate ((req.chainConfig.lookup "prompt").getD "\x7binput\x7d")
            ((req.chainConfig.lookup "input").getD "")) = .ok out →
        executeChain llmGen convGen env st req = (⟨some out, true, none⟩, st')) ∧
    (∀ input : String, formatTemplate "\x7binput\x7d" input = input) ∧
    (∀ (llmGen convGen : ModelHandle → String → Except PyExc String)
        (env : Option String) (st : ServiceState) (req : ChainRequest)
        (t : String),
        req.chainConfig.lookup "type" = some t → t ≠ "llm" → t ≠ "conversation" →
        (executeChain llmGen convGen env st req).1.success = false) := by
  refine ⟨?_, ?_, ?_⟩
  · intro llmGen convGen env st req h st' out htype hres hgen
    unfold executeChain
    rw [hres]
    simp [htype, hgen]
  · intro input
    cases input with
    | mk data => simp [formatTemplate, substData]
  · intro llmGen convGen env st req t htype ht1 ht2
    unfold executeChain
    rcases hres : resolveModel env st req.model with ⟨e | hdl, st'⟩
    · rfl
    · simp [htype, ht1, ht2]

/-- C8 witness: the spec's example — config
`type=llm, prompt="Echo: \x7binput\x7d", input="hi"` — executes the formatted
prompt `Echo: hi` against the resolved model. -/
theorem claimC8_witness :
    executeChain (fun _ p => .ok p) (fun _ _ => .ok "") (some "sk")
        ⟨[], [("gpt-3.5-turbo", ⟨0, "gpt-3.5-turbo", "sk"⟩)], [], [], true, 1⟩
        ⟨[("type", "llm"), ("prompt", "Echo: \x7binput\x7d"), ("input", "hi")],
          "gpt-3.5-turbo"⟩ =
      (⟨some "Echo: hi", true, none⟩,
        ⟨[], [("gpt-3.5-turbo", ⟨0, "gpt-3.5-turbo", "sk"⟩)], [], [], true, 1⟩) :=
  claimC8_chain_dispatch.1 (fun _ p => .ok p) (fun _ _ => .ok "") (some "sk")
    ⟨[], [("gpt-3.5-turbo", ⟨0, "gpt-3.5-turbo", "sk"⟩)], [], [], true, 1⟩
    ⟨[("type", "llm"), ("prompt", "Echo: \x7binput\x7d"), ("input", "hi")],
      "gpt-3.5-turbo"⟩
    ⟨0, "gpt-3.5-turbo", "sk"⟩
    ⟨[], [("gpt-3.5-turbo", ⟨0, "gpt-3.5-turbo", "sk"⟩)], [], [], true, 1⟩
    "Echo: hi" rfl rfl rfl

/-- C9: the calculator tool is total — on every input string it returns some
string and never raises: either the fixed rejection string for a disallowed
character, the stringified value of a successful evaluation, or an
error-description string for any evaluation failure (the concrete conjuncts
exercise a division by zero and a syntax error, both caught and returned as
strings). -/
theorem claimC9_calculator_never_raises :
    (∀ s : String,
        calculator s = "错误: 包含不允许的字符" ∨
        (∃ v, pyEval s = .ok v ∧ calculator s = pyStr v) ∨
        (∃ e, pyEval s = .error e ∧ calculator s = "计算错误: " ++ e)) ∧
    calculator "1/0" = "计算错误: division by zero" ∧
    calculator "2+" = "计算错误: invalid syntax" := by
  refine ⟨?_, by decide, by decide⟩
  intro s
  by_cases hall : (s.data.all (fun c => allowedChars.contains c)) = true
  · cases hev : pyEval s with
    | ok v =>
      refine Or.inr (Or.inl ⟨v, rfl, ?_⟩)
      unfold calculator
      rw [if_pos hall, hev]
    | error e =>
      refine Or.inr (Or.inr ⟨e, rfl, ?_⟩)
      unfold calculator
      rw [if_pos hall, hev]
  · left
    unfold calculator
    rw [if_neg hall]

/-- C10: a chat request containing a message with no `role` key at all fails
with a request-level fault (`HTTPException(500)`), because `msg["role"]` is
read unconditionally before the recognized-role filtering. -/
theorem claimC10_missing_role_fault
    (gen : ModelHandle → List LCMessage → Except PyExc String)
    (env : Option String) (now : String) (st : ServiceState)
    (req : ChatRequest)
    (h : ∃ m ∈ req.messages, m.lookup "role" = none) :
    ∃ d, (chat gen env now st req).1 = .error (.http 500 d) := by
  unfold chat chatTry
  rcases hres : resolveModel env st req.model with ⟨e | hdl, st'⟩
  · exact ⟨_, rfl⟩
  · obtain ⟨e, he⟩ := buildMessages_error_of_missing_role req.messages h
    rw [he]
    exact ⟨_, rfl⟩

/-- C10 witness: a message `[("content", "hello")]` with no `role` key makes
the chat operation fail with a request-level fault even though the model is
cached and the model invocation would succeed. -/
theorem claimC10_witness :
    ∃ d, (chat (fun _ _ => .ok "x") (some "sk") "t"
        ⟨[], [("gpt-3.5-turbo", ⟨0, "gpt-3.5-turbo", "sk"⟩)], [], [], true, 1⟩
        ⟨"gpt-3.5-turbo", [[("content", "hello")]]⟩).1 =
      .error (.http 500 d) :=
  claimC10_missing_role_fault (fun _ _ => .ok "x") (some "sk") "t"
    ⟨[], [("gpt-3.5-turbo", ⟨0, "gpt-3.5-turbo", "sk"⟩)], [], [], true, 1⟩
    ⟨"gpt-3.5-turbo", [[("content", "hello")]]⟩
    ⟨[("content", "hello")], by decide, rfl⟩

end AgentX
